import Mathlib

/-!
Verification development for the XLMate repository.

Part 1 models the Game Registry contract (spec sections 3, 4, 6, 7, 8).
The contract's Rust source is not in the repository snapshot; only its
pull-request description (src/contracts/game_registry/contracts/game-registry/pr_desc.md)
is, so the registry operations are modelled from the specification's words,
following the spec's own design notes (section 9): role state and the record
map are an explicit state struct threaded through every operation, the caller
identity is an explicit argument, and event emission is part of the return
value.

Part 2 embeds the two frontend placeholder functions that are present as
source: useAppContext (src/frontend/context/walletContext.tsx, lines 121-127)
and WalletConnectModal (src/frontend/components/Header.tsx, lines 160-177).
-/

namespace GameRegistry

/-- Modelled from the spec: GameRecord / GameResult (section 3) — winner, the
two participants, and the finalization timestamp.  Identities and timestamps
are opaque; we model them as natural numbers. -/
structure GameResult where
  winner : Nat
  white : Nat
  black : Nat
  timestamp : Nat
  deriving DecidableEq, Repr

/-- Modelled from the spec: a stored record together with its retention
bookkeeping (section 4.5): every commit sets the record's expiry horizon to
now + max_retention_window. -/
structure StoredGame where
  result : GameResult
  expiry : Nat
  deriving DecidableEq, Repr

/-- Modelled from the spec: the error taxonomy of section 7 (InvalidRecord is
omitted: the spec leaves participant-distinctness a caller contract and no
claim concerns it). -/
inductive RegError where
  | NotInitialized
  | AlreadyInitialized
  | Unauthorized
  | DuplicateGame
  deriving DecidableEq, Repr

/-- Modelled from the spec: the structured commit event of sections 4.3 and 6,
carrying (game_id, winner, white, black, timestamp). -/
structure GameFinalizedEvent where
  game_id : Nat
  winner : Nat
  white : Nat
  black : Nat
  timestamp : Nat
  deriving DecidableEq, Repr

/-- Modelled from the spec: the persisted state layout of section 6 — a
singleton role record (two slots, unset until bootstrap) and a keyed
collection of immutable game records, with no other persisted structures.
The record map is an association list from game id to stored record. -/
structure RegistryState where
  admin : Option Nat
  server : Option Nat
  games : List (Nat × StoredGame)
  deriving DecidableEq, Repr

/-- Modelled from the spec: the configured maximum retention window of
section 4.5.  The concrete value is irrelevant to every claim; any positive
constant serves. -/
def maxRetentionWindow : Nat := 535679

/-- The outcome of one registry operation: an optional error (none = the
operation succeeded), the state after the call, and the list of emitted
events, following the spec's design note that events be modelled as part of
the return value. -/
abbrev StepOut := Option RegError × RegistryState × List GameFinalizedEvent

/-- Modelled from the spec: `initialize(admin, server)` (section 4.1) — fails
with AlreadyInitialized if either slot is already set, otherwise sets both
slots atomically.  Not authorization-gated, so no caller argument. -/
def initRegistry (s : RegistryState) (admin server : Nat) : StepOut :=
  if s.admin.isSome || s.server.isSome then
    (some RegError.AlreadyInitialized, s, [])
  else
    (none, { s with admin := some admin, server := some server }, [])

/-- Modelled from the spec: `set_admin(new_admin)` (section 4.2) — fails with
NotInitialized before bootstrap, with Unauthorized if the caller is not the
current admin, otherwise replaces the admin slot.  No event is emitted. -/
def set_admin (s : RegistryState) (caller new_admin : Nat) : StepOut :=
  match s.admin with
  | none => (some RegError.NotInitialized, s, [])
  | some a =>
    if caller = a then
      (none, { s with admin := some new_admin }, [])
    else
      (some RegError.Unauthorized, s, [])

/-- Modelled from the spec: `set_server(new_server)` (section 4.2) — fails
with NotInitialized before bootstrap, with Unauthorized if the caller is not
the current admin, otherwise replaces the server slot.  No event is
emitted. -/
def set_server (s : RegistryState) (caller new_server : Nat) : StepOut :=
  match s.admin with
  | none => (some RegError.NotInitialized, s, [])
  | some a =>
    if caller = a then
      (none, { s with server := some new_server }, [])
    else
      (some RegError.Unauthorized, s, [])

/-- Modelled from the spec: `record_game(game_id, result)` (section 4.3) —
NotInitialized before bootstrap; the authorization check (caller equals the
current Server identity) comes before the existence check; DuplicateGame if a
record already exists under game_id; on success the record is stored with its
retention horizon refreshed to now + maxRetentionWindow and exactly one
structured commit event is emitted. -/
def record_game (s : RegistryState) (caller game_id : Nat) (result : GameResult)
    (now : Nat) : StepOut :=
  match s.server with
  | none => (some RegError.NotInitialized, s, [])
  | some srv =>
    if caller = srv then
      match s.games.lookup game_id with
      | some _ => (some RegError.DuplicateGame, s, [])
      | none =>
        (none,
         { s with games :=
            (game_id, { result := result, expiry := now + maxRetentionWindow }) :: s.games },
         [{ game_id := game_id, winner := result.winner, white := result.white,
            black := result.black, timestamp := result.timestamp }])
    else
      (some RegError.Unauthorized, s, [])

/-- Modelled from the spec: `get_game(game_id)` (section 4.4) — public read,
no authorization (hence no caller argument), returns the stored record if
present or an explicit not-found (none), never errs, and mutates nothing
(the state is returned untouched, which covers the retention bookkeeping:
read does not refresh the retention window). -/
def get_game (s : RegistryState) (game_id : Nat) :
    Option GameResult × RegistryState × List GameFinalizedEvent :=
  match s.games.lookup game_id with
  | some sg => (some sg.result, s, [])
  | none => (none, s, [])

/-- One invocation of a public registry operation, with its caller where the
spec gives the operation one.  `init` carries a caller only to express that
bootstrap is caller-independent (section 4.1: whoever calls first wins). -/
inductive Op where
  | init (caller admin server : Nat)
  | setAdmin (caller new_admin : Nat)
  | setServer (caller new_server : Nat)
  | record (caller game_id : Nat) (result : GameResult) (now : Nat)
  | read (game_id : Nat)
  deriving DecidableEq, Repr

/-- The serialized small-step semantics of section 5: each public operation
runs to completion as a single atomic unit. -/
def step (s : RegistryState) : Op → StepOut
  | Op.init _ a srv => initRegistry s a srv
  | Op.setAdmin c n => set_admin s c n
  | Op.setServer c n => set_server s c n
  | Op.record c g r now => record_game s c g r now
  | Op.read g => (none, (get_game s g).2.1, (get_game s g).2.2)

/-- The state reached after a sequence of operations. -/
def runState (s : RegistryState) : List Op → RegistryState
  | [] => s
  | op :: rest => runState (step s op).2.1 rest

/-- Whether an operation is a `record_game` call on the given game id. -/
def isRecordOn (gid : Nat) : Op → Bool
  | Op.record _ g _ _ => g == gid
  | _ => false

/-- Whether an operation is a `record_game` call at all. -/
def isRecord : Op → Bool
  | Op.record _ _ _ _ => true
  | _ => false

/-- How many `record_game` calls on the given game id succeed along a
sequence of operations started from `s`. -/
def countRecordSuccesses (s : RegistryState) (gid : Nat) : List Op → Nat
  | [] => 0
  | op :: rest =>
    (if isRecordOn gid op && (step s op).1.isNone then 1 else 0) +
      countRecordSuccesses (step s op).2.1 gid rest

/-- Whether an operation is an `initialize` call. -/
def isInit : Op → Bool
  | Op.init _ _ _ => true
  | _ => false

/-- How many `initialize` calls succeed along a sequence of operations
started from `s`. -/
def countInitSuccesses (s : RegistryState) : List Op → Nat
  | [] => 0
  | op :: rest =>
    (if isInit op && (step s op).1.isNone then 1 else 0) +
      countInitSuccesses (step s op).2.1 rest

end GameRegistry

namespace Frontend

/-- The value the active wallet hook returns: optional address, a status
string, an optional balance (src/frontend/context/walletContext.tsx). -/
structure WalletSnapshot where
  address : Option String
  status : String
  balance : Option String
  deriving DecidableEq, Repr

/-- Shallow embedding of the active `useAppContext` placeholder
(src/frontend/context/walletContext.tsx, lines 121-127).  The TypeScript
function takes no argument, calls no React hook, and returns an object
literal; we make it a function of the ambient React environment (whatever
state a surrounding provider would hold) to express that it reads and writes
none of it: the environment is returned unchanged and the result ignores
it. -/
def useAppContext {σ : Type} (env : σ) : WalletSnapshot × σ :=
  ({ address := none, status := "disconnected", balance := none }, env)

/-- A rendered React node: nothing (null), a text node, two adjacent
siblings, or an element with a tag, static attributes, event handlers
(handler name paired with the action it invokes) and a child. -/
inductive VNode (α : Type) where
  | nullNode : VNode α
  | text : String → VNode α
  | seq : VNode α → VNode α → VNode α
  | elem : String → List (String × String) → List (String × α) → VNode α → VNode α
  deriving DecidableEq, Repr

/-- All event handlers reachable anywhere in a rendered tree, each paired
with the action it invokes. -/
def collectHandlers {α : Type} : VNode α → List (String × α)
  | VNode.nullNode => []
  | VNode.text _ => []
  | VNode.seq a b => collectHandlers a ++ collectHandlers b
  | VNode.elem _ _ hs child => hs ++ collectHandlers child

/-- Shallow embedding of the active `WalletConnectModal` placeholder
(src/frontend/components/Header.tsx, lines 160-177): when `isOpen` is false
it returns null; otherwise it renders the static dialog — an overlay div
containing a close button whose onClick is `onClose`, a heading and a
paragraph. -/
def WalletConnectModal {α : Type} (isOpen : Bool) (onClose : α) : VNode α :=
  if isOpen = false then VNode.nullNode
  else
    VNode.elem "div"
      [("className", "fixed inset-0 z-50 flex items-center justify-center")] []
      (VNode.elem "div"
        [("className", "relative bg-gray-900 rounded-lg border border-gray-800 p-6 w-full max-w-md mx-4")] []
        (VNode.seq
          (VNode.elem "button"
            [("className", "absolute top-4 right-4 text-gray-400 hover:text-white"),
             ("aria-label", "Close modal")]
            [("onClick", onClose)]
            (VNode.text "✕"))
          (VNode.seq
            (VNode.elem "h2"
              [("className", "text-xl font-semibold text-white mb-4")] []
              (VNode.text "Connect Wallet"))
            (VNode.elem "p"
              [("className", "text-gray-400 mb-6")] []
              (VNode.text "Wallet connection coming soon")))))

end Frontend

namespace GameRegistry

/-- An empty registry state: before bootstrap, no roles, no records. -/
def emptyState : RegistryState := { admin := none, server := none, games := [] }

/-- A freshly initialized state: admin 1, server 2, no records yet. -/
def initState : RegistryState := { admin := some 1, server := some 2, games := [] }

/-- A sample game result used in concrete instantiations. -/
def demoResult : GameResult := { winner := 3, white := 4, black := 5, timestamp := 6 }

/-- A sample stored record. -/
def demoStored : StoredGame := { result := demoResult, expiry := 100 }

/-- An initialized state (admin 1, server 2) holding one record under id 7. -/
def demoState : RegistryState :=
  { admin := some 1, server := some 2, games := [(7, demoStored)] }

/-- A successful `record_game` requires no prior record under the id, and
stores the submitted result under it with a refreshed retention horizon. -/
theorem record_game_success_lookup (s : RegistryState) (caller game_id : Nat)
    (r : GameResult) (now : Nat) (h : (record_game s caller game_id r now).1 = none) :
    s.games.lookup game_id = none ∧
      ((record_game s caller game_id r now).2.1).games.lookup game_id =
        some { result := r, expiry := now + maxRetentionWindow } := by
  unfold record_game at *
  cases hs : s.server with
  | none => simp [hs] at h
  | some srv =>
    simp only [hs] at h ⊢
    by_cases hc : caller = srv
    · simp only [hc, if_pos rfl] at h ⊢
      cases hg : s.games.lookup game_id with
      | some v => simp [hg] at h
      | none => simp [hg, List.lookup]
    · simp [hc] at h

/-- Any single operation preserves an existing record: if a record is stored
under a game id, the same record (retention horizon included) is stored after
the operation. -/
theorem step_preserves_record (s : RegistryState) (op : Op) (gid : Nat)
    (v : StoredGame) (h : s.games.lookup gid = some v) :
    ((step s op).2.1).games.lookup gid = some v := by
  cases op with
  | init c a srv =>
    simp only [step, initRegistry]
    split <;> simpa using h
  | setAdmin c n =>
    simp only [step, set_admin]
    cases s.admin with
    | none => simpa using h
    | some a => by_cases hc : c = a <;> simp [hc, h]
  | setServer c n =>
    simp only [step, set_server]
    cases s.admin with
    | none => simpa using h
    | some a => by_cases hc : c = a <;> simp [hc, h]
  | record c g r now =>
    simp only [step, record_game]
    cases hs : s.server with
    | none => simpa using h
    | some srv =>
      by_cases hc : c = srv
      · cases hg : s.games.lookup g with
        | some w => simp [hc, hg, h]
        | none =>
          have hne : gid ≠ g := by
            intro he; rw [he, hg] at h; cases h
          simp [hc, hg, List.lookup, beq_eq_false_iff_ne.mpr hne, h]
      · simp [hc, h]
  | read g =>
    simp only [step, get_game]
    cases s.games.lookup g <;> simpa using h

/-- A `record_game` call on an id that already has a record never succeeds,
and fails with DuplicateGame exactly when the caller is the current server
(otherwise the authorization check rejects it first). -/
theorem record_game_existing (s : RegistryState) (caller gid : Nat) (r : GameResult)
    (now : Nat) (v : StoredGame) (h : s.games.lookup gid = some v) :
    (record_game s caller gid r now).1.isSome = true ∧
      (s.server = some caller →
        (record_game s caller gid r now).1 = some RegError.DuplicateGame) := by
  unfold record_game
  cases hs : s.server with
  | none => simp
  | some srv =>
    by_cases hc : caller = srv
    · simp [hc, h]
    · refine ⟨by simp [hc], ?_⟩
      intro he
      injection he with h2
      exact absurd h2.symm hc

/-- A successful `record_game` emits exactly the one structured commit
event. -/
theorem record_game_success_events (s : RegistryState) (caller game_id : Nat)
    (r : GameResult) (now : Nat) (h : (record_game s caller game_id r now).1 = none) :
    (record_game s caller game_id r now).2.2 =
      [{ game_id := game_id, winner := r.winner, white := r.white,
         black := r.black, timestamp := r.timestamp }] := by
  unfold record_game at *
  cases hs : s.server with
  | none => simp [hs] at h
  | some srv =>
    simp only [hs] at h ⊢
    by_cases hc : caller = srv
    · simp only [hc, if_pos rfl] at h ⊢
      cases hg : s.games.lookup game_id with
      | some v => simp [hg] at h
      | none => simp [hg]
    · simp [hc] at h

/-- Every failing operation leaves the whole stored state untouched and
emits no event. -/
theorem step_fail_frame (s : RegistryState) (op : Op) (e : RegError)
    (h : (step s op).1 = some e) :
    (step s op).2.1 = s ∧ (step s op).2.2 = [] := by
  cases op with
  | init c a srv =>
    by_cases hin : (s.admin.isSome || s.server.isSome) = true
    · simp [step, initRegistry, hin]
    · simp [step, initRegistry, hin] at h
  | setAdmin c n =>
    cases ha : s.admin with
    | none => simp [step, set_admin, ha]
    | some a =>
      by_cases hc : c = a
      · simp [step, set_admin, ha, hc] at h
      · simp [step, set_admin, ha, hc]
  | setServer c n =>
    cases ha : s.admin with
    | none => simp [step, set_server, ha]
    | some a =>
      by_cases hc : c = a
      · simp [step, set_server, ha, hc] at h
      · simp [step, set_server, ha, hc]
  | record c g r now =>
    cases hs : s.server with
    | none => simp [step, record_game, hs]
    | some srv =>
      by_cases hc : c = srv
      · cases hg : s.games.lookup g with
        | some w => simp [step, record_game, hs, hc, hg]
        | none => simp [step, record_game, hs, hc, hg] at h
      · simp [step, record_game, hs, hc]
  | read g =>
    simp [step] at h

/-- A successful bootstrap requires both role slots unset and sets both
atomically. -/
theorem initRegistry_success (s : RegistryState) (a srv : Nat)
    (h : (initRegistry s a srv).1 = none) :
    s.admin = none ∧ s.server = none ∧
      (initRegistry s a srv).2.1.admin = some a ∧
      (initRegistry s a srv).2.1.server = some srv := by
  cases ha : s.admin with
  | some a0 => simp [initRegistry, ha] at h
  | none =>
    cases hs : s.server with
    | some s0 => simp [initRegistry, ha, hs] at h
    | none => simp [initRegistry, ha, hs]

/-- A set admin slot stays set across any single operation (it may be
reassigned, never cleared). -/
theorem step_admin_mono (s : RegistryState) (op : Op)
    (h : s.admin.isSome = true) : ((step s op).2.1).admin.isSome = true := by
  cases op with
  | init c a srv => simp [step, initRegistry, h]
  | setAdmin c n =>
    cases ha : s.admin with
    | none => rw [ha] at h; cases h
    | some a => by_cases hc : c = a <;> simp [step, set_admin, ha, hc]
  | setServer c n =>
    cases ha : s.admin with
    | none => rw [ha] at h; cases h
    | some a => by_cases hc : c = a <;> simp [step, set_server, ha, hc, h]
  | record c g r now =>
    cases hs : s.server with
    | none => simpa [step, record_game, hs] using h
    | some srv =>
      by_cases hc : c = srv
      · cases hg : s.games.lookup g <;>
          simpa [step, record_game, hs, hc, hg] using h
      · simpa [step, record_game, hs, hc] using h
  | read g =>
    simp only [step, get_game]
    cases s.games.lookup g <;> simpa using h

/-- A set server slot stays set across any single operation. -/
theorem step_server_mono (s : RegistryState) (op : Op)
    (h : s.server.isSome = true) : ((step s op).2.1).server.isSome = true := by
  cases op with
  | init c a srv => simp [step, initRegistry, h]
  | setAdmin c n =>
    cases ha : s.admin with
    | none => simpa [step, set_admin, ha] using h
    | some a => by_cases hc : c = a <;> simp [step, set_admin, ha, hc, h]
  | setServer c n =>
    cases ha : s.admin with
    | none => simpa [step, set_server, ha] using h
    | some a => by_cases hc : c = a <;> simp [step, set_server, ha, hc, h]
  | record c g r now =>
    cases hs : s.server with
    | none => rw [hs] at h; cases h
    | some srv =>
      by_cases hc : c = srv
      · cases hg : s.games.lookup g <;>
          simp [step, record_game, hs, hc, hg, h]
      · simp [step, record_game, hs, hc, h]
  | read g =>
    simp only [step, get_game]
    cases s.games.lookup g <;> simpa using h

/-- Records survive any sequence of operations unchanged. -/
theorem runState_preserves_record (s : RegistryState) (ops : List Op) (gid : Nat)
    (v : StoredGame) (h : s.games.lookup gid = some v) :
    ((runState s ops).games.lookup gid = some v) := by
  induction ops generalizing s with
  | nil => simpa [runState] using h
  | cons op rest ih =>
    exact ih _ (step_preserves_record s op gid v h)

/-- Both role slots, once set, stay set over any sequence of operations. -/
theorem runState_preserves_roles (s : RegistryState) (ops : List Op)
    (ha : s.admin.isSome = true) (hs : s.server.isSome = true) :
    ((runState s ops).admin.isSome = true ∧ (runState s ops).server.isSome = true) := by
  induction ops generalizing s with
  | nil => exact ⟨ha, hs⟩
  | cons op rest ih =>
    exact ih _ (step_admin_mono s op ha) (step_server_mono s op hs)

/-- Once a record exists under an id, no `record_game` call on that id ever
succeeds again along any sequence of operations. -/
theorem countRecordSuccesses_zero (s : RegistryState) (gid : Nat) (v : StoredGame)
    (h : s.games.lookup gid = some v) (ops : List Op) :
    countRecordSuccesses s gid ops = 0 := by
  induction ops generalizing s with
  | nil => rfl
  | cons op rest ih =>
    have hrest := ih _ (step_preserves_record s op gid v h)
    have hhead : (if isRecordOn gid op && (step s op).1.isNone then 1 else 0) = 0 := by
      cases op with
      | record c g r now =>
        by_cases hg : g = gid
        · subst hg
          have hx := (record_game_existing s c g r now v h).1
          cases hr : (record_game s c g r now).1 with
          | none => rw [hr] at hx; simp at hx
          | some e => simp [isRecordOn, step, hr]
        · simp [isRecordOn, beq_eq_false_iff_ne.mpr hg]
      | init c a srv => simp [isRecordOn]
      | setAdmin c n => simp [isRecordOn]
      | setServer c n => simp [isRecordOn]
      | read g => simp [isRecordOn]
    have heq : countRecordSuccesses s gid (op :: rest) =
        (if isRecordOn gid op && (step s op).1.isNone then 1 else 0) +
          countRecordSuccesses (step s op).2.1 gid rest := rfl
    rw [heq, hhead, hrest]

/-- Along any sequence of operations, at most one `record_game` call on a
given id succeeds. -/
theorem countRecordSuccesses_le_one (s : RegistryState) (gid : Nat) (ops : List Op) :
    countRecordSuccesses s gid ops ≤ 1 := by
  induction ops generalizing s with
  | nil => simp [countRecordSuccesses]
  | cons op rest ih =>
    by_cases hsucc : (isRecordOn gid op && (step s op).1.isNone) = true
    · simp only [Bool.and_eq_true] at hsucc
      obtain ⟨hro, hnone⟩ := hsucc
      cases op with
      | record c g r now =>
        have hg : g = gid := by simpa [isRecordOn] using hro
        subst hg
        have hn : (record_game s c g r now).1 = none := by
          simpa [step, Option.isNone_iff_eq_none] using hnone
        have hlook := (record_game_success_lookup s c g r now hn).2
        have hzero := countRecordSuccesses_zero ((record_game s c g r now).2.1) g
          { result := r, expiry := now + maxRetentionWindow } hlook rest
        have heq : countRecordSuccesses s g (Op.record c g r now :: rest) =
            (if isRecordOn g (Op.record c g r now) &&
                (step s (Op.record c g r now)).1.isNone then 1 else 0) +
              countRecordSuccesses (step s (Op.record c g r now)).2.1 g rest := rfl
        rw [heq]
        have hstep : (step s (Op.record c g r now)).2.1 = (record_game s c g r now).2.1 := rfl
        rw [hstep, hzero]
        simp [isRecordOn, hnone]
      | init c a srv => simp [isRecordOn] at hro
      | setAdmin c n => simp [isRecordOn] at hro
      | setServer c n => simp [isRecordOn] at hro
      | read g => simp [isRecordOn] at hro
    · have h0 : (if isRecordOn gid op && (step s op).1.isNone then 1 else 0) = 0 := by
        simp [hsucc]
      simp only [countRecordSuccesses, h0, Nat.zero_add]
      exact ih _

/-- Once either role slot is set, no `initialize` call ever succeeds again
along any sequence of operations. -/
theorem countInitSuccesses_zero (s : RegistryState)
    (h : (s.admin.isSome || s.server.isSome) = true) (ops : List Op) :
    countInitSuccesses s ops = 0 := by
  induction ops generalizing s with
  | nil => rfl
  | cons op rest ih =>
    have hpres : ((step s op).2.1.admin.isSome || (step s op).2.1.server.isSome) = true := by
      simp only [Bool.or_eq_true] at h ⊢
      rcases h with ha | hs
      · exact Or.inl (step_admin_mono s op ha)
      · exact Or.inr (step_server_mono s op hs)
    have hhead : (if isInit op && (step s op).1.isNone then 1 else 0) = 0 := by
      cases op with
      | init c a srv => simp [isInit, step, initRegistry, h]
      | setAdmin c n => simp [isInit]
      | setServer c n => simp [isInit]
      | record c g r now => simp [isInit]
      | read g => simp [isInit]
    have heq : countInitSuccesses s (op :: rest) =
        (if isInit op && (step s op).1.isNone then 1 else 0) +
          countInitSuccesses (step s op).2.1 rest := rfl
    rw [heq, hhead, ih _ hpres]

/-- Along any sequence of operations, at most one `initialize` call
succeeds. -/
theorem countInitSuccesses_le_one (s : RegistryState) (ops : List Op) :
    countInitSuccesses s ops ≤ 1 := by
  induction ops generalizing s with
  | nil => simp [countInitSuccesses]
  | cons op rest ih =>
    by_cases hsucc : (isInit op && (step s op).1.isNone) = true
    · simp only [Bool.and_eq_true] at hsucc
      obtain ⟨hio, hnone⟩ := hsucc
      cases op with
      | init c a srv =>
        have hn : (initRegistry s a srv).1 = none := by
          simpa [step, Option.isNone_iff_eq_none] using hnone
        obtain ⟨-, -, hA, hS⟩ := initRegistry_success s a srv hn
        have hafter : ((step s (Op.init c a srv)).2.1.admin.isSome ||
            (step s (Op.init c a srv)).2.1.server.isSome) = true := by
          simp [step, hA]
        have hzero := countInitSuccesses_zero _ hafter rest
        have heq : countInitSuccesses s (Op.init c a srv :: rest) =
            (if isInit (Op.init c a srv) &&
                (step s (Op.init c a srv)).1.isNone then 1 else 0) +
              countInitSuccesses (step s (Op.init c a srv)).2.1 rest := rfl
        rw [heq, hzero]
        simp [isInit, hnone]
      | setAdmin c n => simp [isInit] at hio
      | setServer c n => simp [isInit] at hio
      | record c g r now => simp [isInit] at hio
      | read g => simp [isInit] at hio
    · have h0 : (if isInit op && (step s op).1.isNone then 1 else 0) = 0 := by
        simp [hsucc]
      simp only [countInitSuccesses, h0, Nat.zero_add]
      exact ih _

end GameRegistry

namespace GameRegistry

/-- C1: for every game_id, at most one `record_game` call ever succeeds over
any sequence of operations; once a record exists under an id, every later
`record_game` call on that id fails — with DuplicateGame when issued by the
current server identity, regardless of the content of the new result — and
the stored record is never overwritten by any operation. -/
theorem recordGameUniqueness :
    (∀ s gid ops, countRecordSuccesses s gid ops ≤ 1) ∧
    (∀ s gid v, s.games.lookup gid = some v →
      (∀ ops, (runState s ops).games.lookup gid = some v) ∧
      (∀ caller r now, (record_game s caller gid r now).1.isSome = true) ∧
      (∀ caller r now, s.server = some caller →
        (record_game s caller gid r now).1 = some RegError.DuplicateGame) ∧
      (∀ ops, countRecordSuccesses s gid ops = 0)) := by
  refine ⟨fun s gid ops => countRecordSuccesses_le_one s gid ops, ?_⟩
  intro s gid v h
  refine ⟨fun ops => runState_preserves_record s ops gid v h,
    fun caller r now => (record_game_existing s caller gid r now v h).1,
    fun caller r now hs => (record_game_existing s caller gid r now v h).2 hs,
    fun ops => countRecordSuccesses_zero s gid v h ops⟩

/-- Witness for C1 at a concrete initialized state with a record under
id 7. -/
theorem recordGameUniqueness_witness :
    countRecordSuccesses demoState 7 [Op.record 2 7 demoResult 0] ≤ 1 ∧
    (runState demoState [Op.record 2 7 demoResult 0]).games.lookup 7 = some demoStored ∧
    (record_game demoState 2 7 demoResult 0).1 = some RegError.DuplicateGame :=
  ⟨recordGameUniqueness.1 demoState 7 [Op.record 2 7 demoResult 0],
   (recordGameUniqueness.2 demoState 7 demoStored rfl).1 [Op.record 2 7 demoResult 0],
   (recordGameUniqueness.2 demoState 7 demoStored rfl).2.2.1 2 demoResult 0 rfl⟩

/-- C2: in an initialized state, a caller different from the current server
receives Unauthorized from `record_game` even on an id that already has a
record — authorization is checked before existence, so an unauthorized
caller cannot learn whether an id is taken. -/
theorem unauthorizedPrecedesExistence (s : RegistryState) (adm srv caller gid : Nat)
    (v : StoredGame) (_hadm : s.admin = some adm) (hsrv : s.server = some srv)
    (hne : caller ≠ srv) (_hg : s.games.lookup gid = some v)
    (r : GameResult) (now : Nat) :
    (record_game s caller gid r now).1 = some RegError.Unauthorized := by
  unfold record_game
  rw [hsrv]
  simp [hne]

/-- Witness for C2: caller 3 is not server 2, id 7 exists, result is
Unauthorized. -/
theorem unauthorizedPrecedesExistence_witness :
    (record_game demoState 3 7 demoResult 0).1 = some RegError.Unauthorized :=
  unauthorizedPrecedesExistence demoState 1 2 3 7 demoStored rfl rfl
    (by decide) rfl demoResult 0

/-- C3: single bootstrap — at most one `initialize` call ever succeeds over
any sequence of operations; a successful one requires both role slots unset
and sets both atomically; once either slot is set, every later `initialize`
call, whatever its caller, fails with AlreadyInitialized; and once both
slots are set they remain set over any sequence of operations (reassignable,
never cleared). -/
theorem singleBootstrap :
    (∀ s ops, countInitSuccesses s ops ≤ 1) ∧
    (∀ s a srv, (initRegistry s a srv).1 = none →
      s.admin = none ∧ s.server = none ∧
      (initRegistry s a srv).2.1.admin = some a ∧
      (initRegistry s a srv).2.1.server = some srv) ∧
    (∀ s, (s.admin.isSome || s.server.isSome) = true →
      ∀ c a srv, (step s (Op.init c a srv)).1 = some RegError.AlreadyInitialized) ∧
    (∀ s, s.admin.isSome = true → s.server.isSome = true →
      ∀ ops, (runState s ops).admin.isSome = true ∧
        (runState s ops).server.isSome = true) := by
  refine ⟨fun s ops => countInitSuccesses_le_one s ops,
    fun s a srv h => initRegistry_success s a srv h, ?_,
    fun s ha hs ops => runState_preserves_roles s ops ha hs⟩
  intro s h c a srv
  simp [step, initRegistry, h]

/-- Witness for C3: bootstrap from the empty state succeeds and sets both
slots; a second call on the resulting demo state fails AlreadyInitialized;
roles persist across a governance call. -/
theorem singleBootstrap_witness :
    (initRegistry emptyState 1 2).2.1.admin = some 1 ∧
    (step demoState (Op.init 9 8 8)).1 = some RegError.AlreadyInitialized ∧
    (runState demoState [Op.setAdmin 1 10]).admin.isSome = true :=
  ⟨(singleBootstrap.2.1 emptyState 1 2 rfl).2.2.1,
   singleBootstrap.2.2.1 demoState rfl 9 8 8,
   (singleBootstrap.2.2.2 demoState rfl rfl [Op.setAdmin 1 10]).1⟩

/-- C4: round-trip — after a successful `record_game(game_id, result)`,
every later `get_game(game_id)`, across any sequence of further operations,
returns exactly the committed result, equal field for field in winner,
white, black and timestamp. -/
theorem roundTrip (s : RegistryState) (caller gid : Nat) (r : GameResult) (now : Nat)
    (h : (record_game s caller gid r now).1 = none) (ops : List Op) :
    (get_game (runState (record_game s caller gid r now).2.1 ops) gid).1 = some r ∧
    (get_game (runState (record_game s caller gid r now).2.1 ops) gid).1.map
      GameResult.winner = some r.winner ∧
    (get_game (runState (record_game s caller gid r now).2.1 ops) gid).1.map
      GameResult.white = some r.white ∧
    (get_game (runState (record_game s caller gid r now).2.1 ops) gid).1.map
      GameResult.black = some r.black ∧
    (get_game (runState (record_game s caller gid r now).2.1 ops) gid).1.map
      GameResult.timestamp = some r.timestamp := by
  have hlook := (record_game_success_lookup s caller gid r now h).2
  have hrun := runState_preserves_record _ ops gid _ hlook
  have hget : (get_game (runState (record_game s caller gid r now).2.1 ops) gid).1 =
      some r := by
    unfold get_game
    rw [hrun]
  exact ⟨hget, by rw [hget]; rfl, by rw [hget]; rfl, by rw [hget]; rfl,
    by rw [hget]; rfl⟩

/-- Witness for C4: a commit on the fresh initialized state round-trips
through a later read. -/
theorem roundTrip_witness :
    (get_game (runState (record_game initState 2 7 demoResult 0).2.1 [Op.read 7]) 7).1 =
      some demoResult :=
  (roundTrip initState 2 7 demoResult 0 rfl [Op.read 7]).1

end GameRegistry

namespace GameRegistry

/-- C5: role governance — `set_admin` and `set_server` fail NotInitialized
before bootstrap; in an initialized state they succeed exactly for the
current admin and fail Unauthorized for every other caller; and immediately
after a successful `set_admin` to a different identity, every governance
call by the previous admin fails Unauthorized. -/
theorem roleGovernance :
    (∀ s c n, s.admin = none →
      (set_admin s c n).1 = some RegError.NotInitialized ∧
      (set_server s c n).1 = some RegError.NotInitialized) ∧
    (∀ s a c n, s.admin = some a → c ≠ a →
      (set_admin s c n).1 = some RegError.Unauthorized ∧
      (set_server s c n).1 = some RegError.Unauthorized) ∧
    (∀ s a n, s.admin = some a →
      (set_admin s a n).1 = none ∧ (set_server s a n).1 = none) ∧
    (∀ s a x, s.admin = some a → x ≠ a →
      ∀ n, (set_admin (set_admin s a x).2.1 a n).1 = some RegError.Unauthorized ∧
        (set_server (set_admin s a x).2.1 a n).1 = some RegError.Unauthorized) := by
  refine ⟨?_, ?_, ?_, ?_⟩
  · intro s c n h
    constructor <;> simp [set_admin, set_server, h]
  · intro s a c n h hne
    constructor <;> simp [set_admin, set_server, h, hne]
  · intro s a n h
    constructor <;> simp [set_admin, set_server, h]
  · intro s a x h hne n
    have hstate : (set_admin s a x).2.1 = { s with admin := some x } := by
      simp [set_admin, h]
    rw [hstate]
    constructor <;> simp [set_admin, set_server, Ne.symm hne]

/-- Witness for C5: on the demo state (admin 1), caller 3 is rejected, admin 1
succeeds, and after `set_admin` to 5 the previous admin 1 is rejected. -/
theorem roleGovernance_witness :
    (set_admin emptyState 1 9).1 = some RegError.NotInitialized ∧
    (set_admin demoState 3 9).1 = some RegError.Unauthorized ∧
    (set_server demoState 1 9).1 = none ∧
    (set_admin (set_admin demoState 1 5).2.1 1 9).1 = some RegError.Unauthorized :=
  ⟨(roleGovernance.1 emptyState 1 9 rfl).1,
   (roleGovernance.2.1 demoState 1 3 9 rfl (by decide)).1,
   (roleGovernance.2.2.1 demoState 1 9 rfl).2,
   (roleGovernance.2.2.2 demoState 1 5 rfl (by decide) 9).1⟩

/-- C6: every successful `record_game` emits exactly one commit event
carrying (game_id, winner, white, black, timestamp), and every failing call
of any registry operation emits zero events. -/
theorem eventDiscipline :
    (∀ s caller gid r now, (record_game s caller gid r now).1 = none →
      (record_game s caller gid r now).2.2 =
        [{ game_id := gid, winner := r.winner, white := r.white,
           black := r.black, timestamp := r.timestamp }]) ∧
    (∀ s op e, (step s op).1 = some e → (step s op).2.2 = []) :=
  ⟨fun s caller gid r now h => record_game_success_events s caller gid r now h,
   fun s op e h => (step_fail_frame s op e h).2⟩

/-- Witness for C6: the commit on the fresh state emits the one structured
event; the unauthorized record attempt emits none. -/
theorem eventDiscipline_witness :
    (record_game initState 2 7 demoResult 0).2.2 =
      [{ game_id := 7, winner := 3, white := 4, black := 5, timestamp := 6 }] ∧
    (step demoState (Op.record 3 9 demoResult 0)).2.2 = [] :=
  ⟨eventDiscipline.1 initState 2 7 demoResult 0 rfl,
   eventDiscipline.2 demoState (Op.record 3 9 demoResult 0)
     RegError.Unauthorized rfl⟩

/-- C7: all-or-nothing — whenever any operation fails with any error, the
entire stored state (both role slots and the whole record map) after the
call equals the state before it. -/
theorem allOrNothing (s : RegistryState) (op : Op) (e : RegError)
    (h : (step s op).1 = some e) : (step s op).2.1 = s :=
  (step_fail_frame s op e h).1

/-- Witness for C7: a duplicate initialization attempt leaves the demo state
exactly as it was. -/
theorem allOrNothing_witness :
    (step demoState (Op.init 9 8 8)).2.1 = demoState :=
  allOrNothing demoState (Op.init 9 8 8) RegError.AlreadyInitialized rfl

/-- C8: `get_game` takes no caller and never fails (public, unauthorized
read); it returns the stored record when one was committed under the id and
an explicit not-found otherwise, never a partial record; it changes no
stored state at all — retention bookkeeping included, since the expiry
horizon is part of the stored state — and no operation other than
`record_game` ever changes the record collection (only commit refreshes the
retention window). -/
theorem getGameFrame :
    (∀ s gid, (step s (Op.read gid)).1 = none) ∧
    (∀ s gid, (get_game s gid).2.1 = s) ∧
    (∀ s gid, (get_game s gid).2.2 = []) ∧
    (∀ s gid v, s.games.lookup gid = some v → (get_game s gid).1 = some v.result) ∧
    (∀ s gid, s.games.lookup gid = none → (get_game s gid).1 = none) ∧
    (∀ s op, isRecord op = false → ((step s op).2.1).games = s.games) := by
  refine ⟨fun s gid => rfl, ?_, ?_, ?_, ?_, ?_⟩
  · intro s gid
    unfold get_game
    cases s.games.lookup gid <;> rfl
  · intro s gid
    unfold get_game
    cases s.games.lookup gid <;> rfl
  · intro s gid v h
    unfold get_game
    rw [h]
  · intro s gid h
    unfold get_game
    rw [h]
  · intro s op h
    cases op with
    | init c a srv =>
      simp only [step, initRegistry]
      split <;> rfl
    | setAdmin c n =>
      cases ha : s.admin with
      | none => simp [step, set_admin, ha]
      | some a => by_cases hc : c = a <;> simp [step, set_admin, ha, hc]
    | setServer c n =>
      cases ha : s.admin with
      | none => simp [step, set_server, ha]
      | some a => by_cases hc : c = a <;> simp [step, set_server, ha, hc]
    | record c g r now => simp [isRecord] at h
    | read g =>
      simp only [step, get_game]
      cases s.games.lookup g <;> rfl

/-- Witness for C8: reading id 7 on the demo state yields the stored result
and touches nothing; reading a missing id yields not-found; a governance
call leaves the record collection alone. -/
theorem getGameFrame_witness :
    (get_game demoState 7).1 = some demoResult ∧
    (get_game demoState 8).1 = none ∧
    (get_game demoState 7).2.1 = demoState ∧
    ((step demoState (Op.setAdmin 1 5)).2.1).games = demoState.games :=
  ⟨getGameFrame.2.2.2.1 demoState 7 demoStored rfl,
   getGameFrame.2.2.2.2.1 demoState 8 rfl,
   getGameFrame.2.1 demoState 7,
   getGameFrame.2.2.2.2.2 demoState (Op.setAdmin 1 5) rfl⟩

end GameRegistry

namespace Frontend

/-- C9: the exported `useAppContext` placeholder is a constant — every call
returns address none, status "disconnected", balance none, reads and writes
no ambient state (the environment is returned unchanged and ignored), so
every consumer always observes a disconnected wallet with no address or
balance. -/
theorem useAppContextConstant {σ : Type} (env : σ) :
    (useAppContext env).1 =
      { address := none, status := "disconnected", balance := none } ∧
    (useAppContext env).2 = env ∧
    ∀ env2 : σ, (useAppContext env).1 = (useAppContext env2).1 :=
  ⟨rfl, rfl, fun _ => rfl⟩

/-- C10: the `WalletConnectModal` placeholder renders nothing when isOpen is
false; when isOpen is true it renders the static dialog whose only event
handler is the close button's onClick invoking onClose — so no code path in
the component can initiate a wallet connection. -/
theorem walletConnectModalStatic {α : Type} (onClose : α) :
    WalletConnectModal false onClose = VNode.nullNode ∧
    collectHandlers (WalletConnectModal true onClose) = [("onClick", onClose)] :=
  ⟨rfl, rfl⟩

end Frontend
